import Mathlib

/-!
Verification development for the neon-rush endless driving game
(`src/js/game.js`).  The simulation core — vehicle kinematics, the
procedural world streamer (`WorldGenerator`), the collision / near-miss /
boost-pad detector (`Game.checkCollisions`), the combo and score logic,
the session state machine and high-score persistence — is embedded
shallowly over exact rational arithmetic (`ℚ`).  Rendering, audio, DOM
and camera/post-processing effects are presentation-only collaborators
in the source and are not part of the simulation state modeled here.

`Math.random()` values are modeled by an explicit stream `ℕ → ℚ`
together with a cursor index, so every definition is deterministic and
executable.  The source's unbounded `while` loops are modeled with an
explicit fuel parameter returning `Option`: `none` means the fuel was
too small, and a loop whose guard is already false succeeds with any
fuel, exactly like the source loop performing zero iterations.
-/

namespace Racegame

/-- Road width constant (game.js line 10). -/
def ROAD_WIDTH : ℚ := 18

/-- Number of lanes (game.js line 11). -/
def LANE_COUNT : ℕ := 5

/-- Width of one lane (game.js line 12). -/
def LANE_WIDTH : ℚ := ROAD_WIDTH / (LANE_COUNT : ℚ)

/-- Length of one world chunk along the travel axis (game.js line 13). -/
def CHUNK_LENGTH : ℚ := 120

/-- Number of chunks kept generated ahead of the player (game.js line 14). -/
def VISIBLE_CHUNKS : ℕ := 6

/-- Initial forward speed (game.js line 15). -/
def BASE_SPEED : ℚ := 40

/-- Speed ceiling (game.js line 16). -/
def MAX_SPEED : ℚ := 200

/-- Linear speed increase per second (game.js line 17). -/
def SPEED_INCREASE_RATE : ℚ := 0.8

/-- Lateral steering speed (game.js line 18). -/
def STEER_SPEED : ℚ := 22

/-- Symmetric lateral clamp around the road center (game.js line 19). -/
def STEER_LIMIT : ℚ := ROAD_WIDTH / 2 - 1.2

/-- Minimal obstacle spacing (game.js line 20). -/
def OBSTACLE_INTERVAL_MIN : ℚ := 18

/-- Maximal obstacle spacing (game.js line 21). -/
def OBSTACLE_INTERVAL_MAX : ℚ := 45

/-- Near-miss lateral threshold (game.js line 22). -/
def NEAR_MISS_DISTANCE : ℚ := 2.8

/-- Collision lateral threshold (game.js line 23). -/
def COLLISION_DISTANCE : ℚ := 1.3

/-- An obstacle vehicle as spawned by `WorldGenerator.spawnObstacle`
(game.js lines 757-769): world position, lane index, the `userData.active`
flag, and whether the object is still attached to the scene graph. -/
structure Obstacle where
  x : ℚ
  z : ℚ
  lane : ℤ
  active : Bool
  inScene : Bool
  deriving DecidableEq, Repr

/-- A boost pad as spawned by `WorldGenerator.spawnBoostPad`
(game.js lines 771-802). -/
structure Pad where
  x : ℚ
  z : ℚ
  active : Bool
  inScene : Bool
  deriving DecidableEq, Repr

/-- The mutable state owned by `WorldGenerator` (game.js lines 536-544):
chunks are identified by their `zStart` coordinate, plus the live obstacle
and boost-pad collections and the two frontier pointers. -/
structure WorldState where
  chunks : List ℚ
  obstacles : List Obstacle
  boostPads : List Pad
  nextObstacleZ : ℚ
  furthestZ : ℚ
  deriving DecidableEq, Repr

/-- Freshly constructed `WorldGenerator` state, which coincides with the
state produced by `WorldGenerator.reset` (game.js lines 537-543 and
858-872). -/
def worldReset : WorldState :=
  { chunks := [], obstacles := [], boostPads := [], nextObstacleZ := -80, furthestZ := 0 }

/-- `WorldGenerator.createChunk` (game.js lines 633-687): the chunk keyed
by its `zStart` is built and pushed onto `this.chunks`.  The decorative
geometry inside the chunk is presentation-only and not modeled. -/
def createChunk (w : WorldState) (zStart : ℚ) : WorldState :=
  { w with chunks := w.chunks ++ [zStart] }

/-- The initial chunk seeding performed both by the `Game` constructor
(game.js lines 1063-1066) and by `Game.restartGame` (lines 1142-1145):
`VISIBLE_CHUNKS + 2` chunks at consecutive multiples of `CHUNK_LENGTH`,
then `furthestZ` is assigned `-(VISIBLE_CHUNKS + 2) * CHUNK_LENGTH`. -/
def seedChunks (w : WorldState) : WorldState :=
  let w1 := (List.range (VISIBLE_CHUNKS + 2)).foldl
    (fun acc i => createChunk acc (-(i : ℚ) * CHUNK_LENGTH)) w
  { w1 with furthestZ := -((VISIBLE_CHUNKS : ℚ) + 2) * CHUNK_LENGTH }

/-- `WorldGenerator.spawnObstacle` (game.js lines 757-769): the lane is
`Math.floor(r * LANE_COUNT)` for a random `r`, the x coordinate is the
lane center, and the obstacle starts active and attached to the scene. -/
def mkObstacle (r z : ℚ) : Obstacle :=
  let lane : ℤ := ⌊r * (LANE_COUNT : ℚ)⌋
  { x := -ROAD_WIDTH / 2 + LANE_WIDTH / 2 + (lane : ℚ) * LANE_WIDTH
    z := z
    lane := lane
    active := true
    inScene := true }

/-- `WorldGenerator.spawnBoostPad` (game.js lines 771-802): same lane
placement as obstacles, active and attached on creation. -/
def mkPad (r z : ℚ) : Pad :=
  let lane : ℤ := ⌊r * (LANE_COUNT : ℚ)⌋
  { x := -ROAD_WIDTH / 2 + LANE_WIDTH / 2 + (lane : ℚ) * LANE_WIDTH
    z := z
    active := true
    inScene := true }

/-- The chunk generation loop of `WorldGenerator.update`
(game.js lines 805-809): while `furthestZ > playerZ - CHUNK_LENGTH *
VISIBLE_CHUNKS`, decrement `furthestZ` by one chunk length and create the
chunk there.  Fuel-bounded; a call whose guard is already false succeeds
with any fuel. -/
def genChunksLoop (playerZ : ℚ) : ℕ → ℚ → List ℚ → Option (ℚ × List ℚ)
  | fuel, furthestZ, chunks =>
    if furthestZ > playerZ - CHUNK_LENGTH * (VISIBLE_CHUNKS : ℚ) then
      match fuel with
      | 0 => none
      | f + 1 =>
        genChunksLoop playerZ f (furthestZ - CHUNK_LENGTH) (chunks ++ [furthestZ - CHUNK_LENGTH])
    else some (furthestZ, chunks)

/-- The obstacle / boost-pad spawning loop of `WorldGenerator.update`
(game.js lines 822-839).  `rng` is the `Math.random()` stream and `k`
the cursor of the next unconsumed random value; the cursor after the
loop is returned.  Each iteration spawns one obstacle, possibly a second
one at a random offset (probability `difficulty * 0.6`), possibly a
boost pad (probability `0.15`), then retreats `nextObstacleZ` by a
difficulty-dependent randomized interval. -/
def spawnLoop (rng : ℕ → ℚ) (playerZ score : ℚ) :
    ℕ → ℕ → ℚ → List Obstacle → List Pad → Option (ℚ × List Obstacle × List Pad × ℕ)
  | fuel, k, nz, obs, pads =>
    if nz > playerZ - CHUNK_LENGTH * ((VISIBLE_CHUNKS : ℚ) - 1) then
      match fuel with
      | 0 => none
      | f + 1 =>
        let obs1 := obs ++ [mkObstacle (rng k) nz]
        let difficulty := min (score / 5000) 1
        let step2 :=
          if rng (k + 1) < difficulty * 0.6 then
            (obs1 ++ [mkObstacle (rng (k + 3)) (nz + (rng (k + 2) - 0.5) * 10)], k + 4)
          else (obs1, k + 2)
        let step3 :=
          if rng step2.2 < 0.15 then
            (pads ++ [mkPad (rng (step2.2 + 1)) (nz - 15)], step2.2 + 2)
          else (pads, step2.2 + 1)
        let interval :=
          OBSTACLE_INTERVAL_MAX - (OBSTACLE_INTERVAL_MAX - OBSTACLE_INTERVAL_MIN) * difficulty
        spawnLoop rng playerZ score f (step3.2 + 1)
          (nz - (interval + rng step3.2 * interval * 0.5)) step2.1 step3.1
    else some (nz, obs, pads, k)

/-- `WorldGenerator.update` (game.js lines 804-856), in source order:
generate chunks ahead; remove chunks with `zStart > playerZ +
CHUNK_LENGTH` (their geometry is disposed and they leave the scene and
the collection together); spawn obstacles and pads ahead; remove
obstacles and pads that fell behind `playerZ + 30`. -/
def worldUpdate (fuel : ℕ) (rng : ℕ → ℚ) (k : ℕ) (playerZ score : ℚ) (w : WorldState) :
    Option (WorldState × ℕ) :=
  match genChunksLoop playerZ fuel w.furthestZ w.chunks with
  | none => none
  | some fzc =>
    let chunks1 := fzc.2.filter (fun z => decide (z ≤ playerZ + CHUNK_LENGTH))
    match spawnLoop rng playerZ score fuel k w.nextObstacleZ w.obstacles w.boostPads with
    | none => none
    | some r =>
      let obs1 := r.2.1.filter (fun o => decide (o.z ≤ playerZ + 30))
      let pads1 := r.2.2.1.filter (fun p => decide (p.z ≤ playerZ + 30))
      some ({ chunks := chunks1
              obstacles := obs1
              boostPads := pads1
              nextObstacleZ := r.1
              furthestZ := fzc.1 }, r.2.2.2)

/-- The session state machine values (game.js line 961). -/
inductive SessionState where
  | menu
  | playing
  | gameover
  deriving DecidableEq, Repr

/-- The simulation-relevant state owned by `Game` (game.js lines
960-969), together with the persisted key-value store: `store` is the
current value under the `neonrush_highscore` key, and `storeLog` records
every `localStorage.setItem` write in order. -/
structure GameState where
  state : SessionState
  score : ℤ
  distance : ℚ
  speed : ℚ
  boostTimer : ℚ
  comboCount : ℕ
  comboTimer : ℚ
  posX : ℚ
  posZ : ℚ
  rotZ : ℚ
  rotY : ℚ
  highScore : ℤ
  store : ℤ
  storeLog : List ℤ
  world : WorldState
  deriving DecidableEq, Repr

/-- `THREE.MathUtils.lerp`, used for the cosmetic vehicle tilt. -/
def lerp (a b t : ℚ) : ℚ := a + (b - a) * t

/-- `Game.gameOver` (game.js lines 1163-1186): enter the `gameover`
state; if the session score strictly exceeds the in-memory high score,
update it and write it back to the persistent store.  The crash audio,
screen shake and the delayed results screen are presentation-only. -/
def gameOverFn (g : GameState) : GameState :=
  if g.score > g.highScore then
    { g with
      state := SessionState.gameover
      highScore := g.score
      store := g.score
      storeLog := g.storeLog ++ [g.score] }
  else { g with state := SessionState.gameover }

/-- The collision test of `Game.checkCollisions` (game.js line 1198):
`dx < COLLISION_DISTANCE && dz < 3.0`, on per-axis absolute distances. -/
def collisionCond (dx dz : ℚ) : Bool :=
  decide (dx < COLLISION_DISTANCE) && decide (dz < 3)

/-- The near-miss test of `Game.checkCollisions` (game.js line 1204):
`dx < NEAR_MISS_DISTANCE && dx > COLLISION_DISTANCE && dz < 2.5`. -/
def nearMissCond (dx dz : ℚ) : Bool :=
  decide (dx < NEAR_MISS_DISTANCE) && decide (dx > COLLISION_DISTANCE) && decide (dz < 2.5)

/-- The obstacle loop of `Game.checkCollisions` (game.js lines
1192-1214).  Inactive obstacles are skipped; a collision triggers
`gameOver` and aborts the whole routine (the `Bool` component records
that early return); a near-miss deactivates the obstacle, escalates the
combo, refreshes the 2-second combo timer and adds `50 * comboCount` to
the score. -/
def checkObsList (px pz : ℚ) : GameState → List Obstacle → List Obstacle × GameState × Bool
  | g, [] => ([], g, false)
  | g, o :: rest =>
    if o.active then
      let dx := |px - o.x|
      let dz := |pz - o.z|
      if collisionCond dx dz then (o :: rest, gameOverFn g, true)
      else if nearMissCond dx dz then
        let g1 := { g with
                    comboCount := g.comboCount + 1
                    comboTimer := 2
                    score := g.score + 50 * ((g.comboCount : ℤ) + 1) }
        let r := checkObsList px pz g1 rest
        ({ o with active := false } :: r.1, r.2)
      else
        let r := checkObsList px pz g rest
        (o :: r.1, r.2)
    else
      let r := checkObsList px pz g rest
      (o :: r.1, r.2)

/-- The boost-pad loop of `Game.checkCollisions` (game.js lines
1217-1228), threading the boost timer: a pickup deactivates the pad,
removes it from the scene and sets the boost timer to 3 seconds. -/
def checkPadsList (px pz : ℚ) : List Pad → ℚ → List Pad × ℚ
  | [], bt => ([], bt)
  | p :: rest, bt =>
    if p.active ∧ |px - p.x| < 1.8 ∧ |pz - p.z| < 2 then
      let r := checkPadsList px pz rest 3
      ({ p with active := false, inScene := false } :: r.1, r.2)
    else
      let r := checkPadsList px pz rest bt
      (p :: r.1, r.2)

/-- `Game.checkCollisions` (game.js lines 1188-1229): run the obstacle
loop at the vehicle position; if it ended in a collision the routine
returns immediately, otherwise the boost-pad loop runs. -/
def checkCollisions (g : GameState) : GameState :=
  let r := checkObsList g.posX g.posZ g g.world.obstacles
  let g1 := { r.2.1 with world := { r.2.1.world with obstacles := r.1 } }
  if r.2.2 then g1
  else
    let pr := checkPadsList g.posX g.posZ g1.world.boostPads g1.boostTimer
    { g1 with boostTimer := pr.2, world := { g1.world with boostPads := pr.1 } }

/-- The combo decay fragment of `Game.update` (game.js lines 1266-1273):
while the combo timer is positive it counts down, and the combo counter
resets to zero the moment it reaches or passes zero. -/
def comboDecay (delta : ℚ) (g : GameState) : GameState :=
  if g.comboTimer > 0 then
    let t := g.comboTimer - delta
    if t ≤ 0 then { g with comboTimer := t, comboCount := 0 }
    else { g with comboTimer := t }
  else g

/-- One frame's input: the raw elapsed time and the steering scalar
produced by `TouchControls.getSteerInput`. -/
structure StepIn where
  delta : ℚ
  steer : ℚ
  deriving DecidableEq, Repr

/-- The kinematic prefix of `Game.update` (game.js lines 1234-1273), up
to but excluding `checkCollisions`: clamp the delta to `0.05`, raise the
speed linearly clamped at `MAX_SPEED`, apply the boost multiplier and
count its timer down, advance the position and distance, re-derive the
score as `Math.floor(distance)`, steer with a hard lateral clamp, update
the cosmetic tilt, and decay the combo timer. -/
def advanceKinematics (i : StepIn) (g : GameState) : GameState :=
  let delta := min i.delta 0.05
  let speed := min (g.speed + SPEED_INCREASE_RATE * delta) MAX_SPEED
  let boostTimer := if g.boostTimer > 0 then g.boostTimer - delta else g.boostTimer
  let currentSpeed := if g.boostTimer > 0 then speed * 1.5 else speed
  let moveDistance := currentSpeed * delta
  let posZ := g.posZ - moveDistance
  let distance := g.distance + moveDistance
  let score := ⌊distance⌋
  let posX0 := g.posX + i.steer * STEER_SPEED * delta
  let posX := max (-STEER_LIMIT) (min STEER_LIMIT posX0)
  let rotZ := lerp g.rotZ (-i.steer * 0.08) 0.1
  let rotY := lerp g.rotY (-i.steer * 0.03) 0.1
  comboDecay delta { g with
    speed := speed
    boostTimer := boostTimer
    posZ := posZ
    distance := distance
    score := score
    posX := posX
    rotZ := rotZ
    rotY := rotY }

/-- `Game.update` (game.js lines 1231-1337): a no-op outside the
`playing` state; otherwise the kinematic prefix, then `checkCollisions`,
then `WorldGenerator.update` at the new vehicle position with the
current score.  Camera, post-processing, particles, audio and HUD writes
are presentation-only.  Returns the new state and random-stream cursor,
or `none` when the world loops ran out of fuel. -/
def stepGame (fuel : ℕ) (rng : ℕ → ℚ) (k : ℕ) (i : StepIn) (g : GameState) :
    Option (GameState × ℕ) :=
  if g.state = SessionState.playing then
    let g1 := advanceKinematics i g
    let g2 := checkCollisions g1
    match worldUpdate fuel rng k g2.posZ (g2.score : ℚ) g2.world with
    | none => none
    | some wr => some ({ g2 with world := wr.1 }, wr.2)
  else some (g, k)

/-- Iterated frames: one `Game.update` per input, threading the
random-stream cursor. -/
def runSteps (fuel : ℕ) (rng : ℕ → ℚ) : List StepIn → GameState × ℕ → Option (GameState × ℕ)
  | [], gk => some gk
  | i :: rest, gk =>
    match stepGame fuel rng gk.2 i gk.1 with
    | none => none
    | some gk1 => runSteps fuel rng rest gk1

/-- The `Game` constructor state (game.js lines 960-1082): menu state,
zeroed session scalars, speed at `BASE_SPEED`, the high score read once
from the persistent store (`stored`), and the initially seeded world. -/
def initGame (stored : ℤ) : GameState :=
  { state := SessionState.menu
    score := 0
    distance := 0
    speed := BASE_SPEED
    boostTimer := 0
    comboCount := 0
    comboTimer := 0
    posX := 0
    posZ := 0
    rotZ := 0
    rotY := 0
    highScore := stored
    store := stored
    storeLog := []
    world := seedChunks worldReset }

/-- `Game.startGame` (game.js lines 1115-1134): enter `playing` with all
session scalars reset and the vehicle at the origin (the world keeps the
constructor's chunks). -/
def startGame (g : GameState) : GameState :=
  { g with
    state := SessionState.playing
    score := 0
    distance := 0
    speed := BASE_SPEED
    boostTimer := 0
    comboCount := 0
    comboTimer := 0
    posX := 0
    posZ := 0 }

/-- `Game.restartGame` (game.js lines 1136-1161): `WorldGenerator.reset`
followed by the same chunk seeding as the constructor, then the same
session reset as `startGame`. -/
def restartGame (g : GameState) : GameState :=
  { g with
    world := seedChunks worldReset
    state := SessionState.playing
    score := 0
    distance := 0
    speed := BASE_SPEED
    boostTimer := 0
    comboCount := 0
    comboTimer := 0
    posX := 0
    posZ := 0 }

/-- Speed-bounds check on the outcome of a (possibly failed) run; a
fuel-exhausted run imposes nothing. -/
def speedOkB : Option (GameState × ℕ) → Bool
  | none => true
  | some gk => decide (BASE_SPEED ≤ gk.1.speed ∧ gk.1.speed ≤ MAX_SPEED)

/-- Checks that the session score equals `⌊distance⌋` on the outcome of
a (possibly failed) step. -/
def scoreFloorB : Option (GameState × ℕ) → Bool
  | none => true
  | some gk => decide (gk.1.score = ⌊gk.1.distance⌋)

/-- Chunk collection of a (possibly failed) world update. -/
def resultChunks : Option (WorldState × ℕ) → List ℚ
  | none => []
  | some wr => wr.1.chunks

/-- The chunk with the given `zStart` spans `[zStart - CHUNK_LENGTH,
zStart]`; this says that span meets the visible range
`[playerZ - CHUNK_LENGTH * VISIBLE_CHUNKS, playerZ]` ahead of the player. -/
def chunkSpanIntersectsAhead (playerZ zStart : ℚ) : Prop :=
  playerZ - CHUNK_LENGTH * (VISIBLE_CHUNKS : ℚ) ≤ zStart ∧ zStart - CHUNK_LENGTH ≤ playerZ

/-- A degenerate random stream (every draw is 0), used for concrete runs. -/
def rngZero : ℕ → ℚ := fun _ => 0

/-- An obstacle parked in the lane 2 units to the player's right, as used
in the combo scenario of the spec. -/
def comboObstacle (z : ℚ) : Obstacle :=
  { x := 2, z := z, lane := 0, active := true, inScene := true }

/-- Concrete playing-state session for the combo scenario: three active
obstacles at lateral offset 2.0 ahead of the vehicle, spaced 5 apart. -/
def comboG0 : GameState :=
  { state := SessionState.playing
    score := 0
    distance := 0
    speed := BASE_SPEED
    boostTimer := 0
    comboCount := 0
    comboTimer := 0
    posX := 0
    posZ := -2
    rotZ := 0
    rotY := 0
    highScore := 0
    store := 0
    storeLog := []
    world := { chunks := []
               obstacles := [comboObstacle (-2), comboObstacle (-7), comboObstacle (-12)]
               boostPads := []
               nextObstacleZ := -700
               furthestZ := -960 } }

/-- Combo scenario, first near-miss event. -/
def comboGA : GameState := checkCollisions comboG0

/-- Combo scenario, 0.5 s of combo-timer decay, vehicle now at the second
obstacle. -/
def comboGB : GameState := comboDecay 0.5 { comboGA with posZ := -7 }

/-- Combo scenario, second near-miss event. -/
def comboGC : GameState := checkCollisions comboGB

/-- Combo scenario, 0.5 s of decay, vehicle at the third obstacle. -/
def comboGD : GameState := comboDecay 0.5 { comboGC with posZ := -12 }

/-- Combo scenario, third near-miss event. -/
def comboGE : GameState := checkCollisions comboGD

/-- A session with a stored high score of 3 and a final score of 5, used
as the concrete new-record input. -/
def gHi : GameState := { initGame 3 with score := 5 }

/-- A playing-state session carrying one distant active obstacle and a
spawn frontier already beyond range, used as a concrete frame input. -/
def gTen : GameState :=
  { startGame (initGame 0) with
    world := { seedChunks worldReset with
               obstacles := [{ x := 2, z := -500, lane := 0, active := true, inScene := true }]
               nextObstacleZ := -700 } }

/-- The seeded start's chunk collection and frontier pointer with the
obstacle frontier already pushed out of spawning range, observed at
reference position `-250`: the streamer's own chunk seeding
(`furthestZ` one chunk beyond the last created chunk) makes this the
state in which the hole first appears. -/
def c5World : WorldState := { seedChunks worldReset with nextObstacleZ := -860 }

/-- A concrete active pad at the origin. -/
def padW : Pad := { x := 0, z := 0, active := true, inScene := true }

/-! ## Claim C2: rectangular collision / near-miss classification -/

/-- C2.  The detector's two tests classify a per-axis distance pair
`(dx, dz)` into at most one of collision and near-miss: collision
exactly when `dx < 1.3 ∧ dz < 3.0`, near-miss exactly when
`1.3 < dx < 2.8 ∧ dz < 2.5`, and never both — per-axis threshold
comparisons, with no Euclidean combination. -/
theorem collision_near_miss_rectangular (dx dz : ℚ) :
    ¬(collisionCond dx dz = true ∧ nearMissCond dx dz = true) ∧
    (collisionCond dx dz = true ↔ dx < 1.3 ∧ dz < 3) ∧
    (nearMissCond dx dz = true ↔ 1.3 < dx ∧ dx < 2.8 ∧ dz < 2.5) := by
  have hc : collisionCond dx dz = true ↔ dx < 1.3 ∧ dz < 3 := by
    simp [collisionCond, COLLISION_DISTANCE]
  have hn : nearMissCond dx dz = true ↔ 1.3 < dx ∧ dx < 2.8 ∧ dz < 2.5 := by
    simp only [nearMissCond, NEAR_MISS_DISTANCE, COLLISION_DISTANCE, Bool.and_eq_true,
      decide_eq_true_eq, gt_iff_lt]
    tauto
  refine ⟨?_, hc, hn⟩
  rintro ⟨h1, h2⟩
  exact absurd (hc.mp h1).1 (not_lt.mpr (hn.mp h2).1.le)

/-! ## Claim C3: combo scoring scenario -/

set_option maxRecDepth 8000 in
/-- C3.  From `comboCount = 0`, three consecutive near-misses on
obstacles at lateral offset 2.0, each within the 2-second combo decay
window, yield multipliers 1, 2, 3 and score increments 50, 100, 150;
each event refreshes the timer to 2 s and deactivates its obstacle,
which then cannot trigger again. -/
theorem combo_three_near_misses :
    comboGA.comboCount = 1 ∧ comboGA.score - comboG0.score = 50 ∧ comboGA.comboTimer = 2 ∧
    comboGA.world.obstacles.map Obstacle.active = [false, true, true] ∧
    checkCollisions comboGA = comboGA ∧
    0 < comboGB.comboTimer ∧
    comboGC.comboCount = 2 ∧ comboGC.score - comboGA.score = 100 ∧
    0 < comboGD.comboTimer ∧
    comboGE.comboCount = 3 ∧ comboGE.score - comboGC.score = 150 ∧
    comboGE.world.obstacles.map Obstacle.active = [false, false, false] := by
  with_unfolding_all decide

/-! ## Claim C5: chunk coverage after a world update -/

set_option maxRecDepth 8000 in
/-- C5.  Counterexample to full visible-range coverage: the seeding sets
`furthestZ` one chunk-length beyond the last chunk it creates, so from
the seeded chunk set the coverage update at reference position `-250`
succeeds and generates `-1080`, yet the chunk at `zStart = -960` — whose
span intersects the visible range ahead of the player — never exists. -/
theorem missing_chunk_in_visible_range :
    (worldUpdate 5 rngZero 0 (-250) 0 c5World).isSome = true ∧
    chunkSpanIntersectsAhead (-250) (-960) ∧
    (-960 : ℚ) ∉ resultChunks (worldUpdate 5 rngZero 0 (-250) 0 c5World) ∧
    (-1080 : ℚ) ∈ resultChunks (worldUpdate 5 rngZero 0 (-250) 0 c5World) := by
  refine ⟨?_, ?_, ?_, ?_⟩
  · with_unfolding_all rfl
  · unfold chunkSpanIntersectsAhead
    with_unfolding_all decide
  · with_unfolding_all decide
  · with_unfolding_all decide

/-! ## Claim C6: delta-time clamp -/

/-- C6.  A frame with a 2-second delta is indistinguishable from one
with the 0.05-second cap: `Game.update` clamps the elapsed time before
any use, so position, distance, speed — the whole resulting state and
random cursor — coincide. -/
theorem delta_time_clamped (fuel k : ℕ) (rng : ℕ → ℚ) (steer : ℚ) (g : GameState) :
    stepGame fuel rng k { delta := 2, steer := steer } g =
    stepGame fuel rng k { delta := 0.05, steer := steer } g := by
  have e : advanceKinematics { delta := 2, steer := steer } g =
      advanceKinematics { delta := 0.05, steer := steer } g := by
    have e1 : min ((2 : ℚ)) 0.05 = min ((0.05 : ℚ)) 0.05 := by norm_num
    simp only [advanceKinematics]
    rw [e1]
  simp only [stepGame, e]

/-! ## Claim C7: restart fully resets the session -/

/-- C7.  `Game.restartGame` (from any state, in particular `gameover`)
empties the obstacle and pad collections, regenerates the
`VISIBLE_CHUNKS + 2` starting chunks at multiples of `CHUNK_LENGTH`,
sets the frontier pointers as the constructor does, resets speed to
`BASE_SPEED`, score, distance, combo and boost timers to zero, puts the
vehicle at the origin and enters the `playing` state. -/
theorem restart_resets_session (g : GameState) :
    (restartGame g).state = SessionState.playing ∧
    (restartGame g).speed = BASE_SPEED ∧
    (restartGame g).score = 0 ∧
    (restartGame g).distance = 0 ∧
    (restartGame g).boostTimer = 0 ∧
    (restartGame g).comboCount = 0 ∧
    (restartGame g).comboTimer = 0 ∧
    (restartGame g).posX = 0 ∧
    (restartGame g).posZ = 0 ∧
    (restartGame g).world.obstacles = [] ∧
    (restartGame g).world.boostPads = [] ∧
    (restartGame g).world.chunks =
      (List.range (VISIBLE_CHUNKS + 2)).map (fun i => -(i : ℚ) * CHUNK_LENGTH) ∧
    (restartGame g).world.furthestZ = -((VISIBLE_CHUNKS : ℚ) + 2) * CHUNK_LENGTH ∧
    (restartGame g).world.nextObstacleZ = -80 := by
  refine ⟨rfl, rfl, rfl, rfl, rfl, rfl, rfl, rfl, rfl, ?_, ?_, ?_, ?_, ?_⟩ <;>
    with_unfolding_all rfl

/-! ## Claim C4: idempotence of the coverage update -/

/-- Unfolding of `worldUpdate` when both of its loops succeed. -/
lemma worldUpdate_eq (fuel : ℕ) (rng : ℕ → ℚ) (k : ℕ) (p s : ℚ) (w : WorldState)
    (fz : ℚ) (c : List ℚ) (nz : ℚ) (obs : List Obstacle) (pads : List Pad) (kk : ℕ)
    (hg : genChunksLoop p fuel w.furthestZ w.chunks = some (fz, c))
    (hs : spawnLoop rng p s fuel k w.nextObstacleZ w.obstacles w.boostPads =
      some (nz, obs, pads, kk)) :
    worldUpdate fuel rng k p s w =
      some ({ chunks := c.filter (fun z => decide (z ≤ p + CHUNK_LENGTH))
              obstacles := obs.filter (fun o => decide (o.z ≤ p + 30))
              boostPads := pads.filter (fun b => decide (b.z ≤ p + 30))
              nextObstacleZ := nz
              furthestZ := fz }, kk) := by
  unfold worldUpdate
  rw [hg, hs]

/-- A successful chunk-generation loop stops with the frontier at or
below the generation bound. -/
lemma genChunksLoop_post (p : ℚ) (fuel : ℕ) :
    ∀ (fz : ℚ) (c : List ℚ) (r : ℚ × List ℚ),
      genChunksLoop p fuel fz c = some r →
      ¬ r.1 > p - CHUNK_LENGTH * (VISIBLE_CHUNKS : ℚ) := by
  induction fuel with
  | zero =>
    intro fz c r h
    rw [genChunksLoop] at h
    split at h
    · exact Option.noConfusion h
    · next hguard =>
      injection h with h1
      subst h1
      exact hguard
  | succ f ih =>
    intro fz c r h
    rw [genChunksLoop] at h
    split at h
    · exact ih _ _ _ h
    · next hguard =>
      injection h with h1
      subst h1
      exact hguard

/-- A chunk-generation loop whose guard is already false returns its
input unchanged, with any fuel. -/
lemma genChunksLoop_noop (p : ℚ) (fuel : ℕ) (fz : ℚ) (c : List ℚ)
    (h : ¬ fz > p - CHUNK_LENGTH * (VISIBLE_CHUNKS : ℚ)) :
    genChunksLoop p fuel fz c = some (fz, c) := by
  cases fuel with
  | zero => rw [genChunksLoop, if_neg h]
  | succ f => rw [genChunksLoop, if_neg h]

/-- A successful spawning loop stops with the obstacle frontier at or
below the spawning bound. -/
lemma spawnLoop_post (rng : ℕ → ℚ) (p s : ℚ) (fuel : ℕ) :
    ∀ (k : ℕ) (nz : ℚ) (obs : List Obstacle) (pads : List Pad)
      (r : ℚ × List Obstacle × List Pad × ℕ),
      spawnLoop rng p s fuel k nz obs pads = some r →
      ¬ r.1 > p - CHUNK_LENGTH * ((VISIBLE_CHUNKS : ℚ) - 1) := by
  induction fuel with
  | zero =>
    intro k nz obs pads r h
    rw [spawnLoop] at h
    split at h
    · exact Option.noConfusion h
    · next hguard =>
      injection h with h1
      subst h1
      exact hguard
  | succ f ih =>
    intro k nz obs pads r h
    rw [spawnLoop] at h
    split at h
    · exact ih _ _ _ _ _ h
    · next hguard =>
      injection h with h1
      subst h1
      exact hguard

/-- A spawning loop whose guard is already false returns its input
unchanged, with any fuel and any random stream. -/
lemma spawnLoop_noop (rng : ℕ → ℚ) (p s : ℚ) (fuel k : ℕ) (nz : ℚ)
    (obs : List Obstacle) (pads : List Pad)
    (h : ¬ nz > p - CHUNK_LENGTH * ((VISIBLE_CHUNKS : ℚ) - 1)) :
    spawnLoop rng p s fuel k nz obs pads = some (nz, obs, pads, k) := by
  cases fuel with
  | zero => rw [spawnLoop, if_neg h]
  | succ f => rw [spawnLoop, if_neg h]

/-- Filtering twice by the same predicate is the same as filtering once. -/
lemma filter_self_idem {α : Type} (q : α → Bool) (l : List α) :
    (l.filter q).filter q = l.filter q := by
  induction l with
  | nil => rfl
  | cons a t ih =>
    by_cases hq : q a = true
    · simp [List.filter_cons, hq, ih]
    · simp [List.filter_cons, hq, ih]

/-- C4.  Running `WorldGenerator.update` a second time at the same
reference position (any fuel, any random stream, any score) creates and
destroys nothing: the chunk, obstacle and boost-pad collections and
the frontier pointers `furthestZ` and `nextObstacleZ` are returned
unchanged, and no random values are consumed. -/
theorem ensureCoverage_idempotent (f1 f2 k1 k2 k1o : ℕ) (rng1 rng2 : ℕ → ℚ)
    (p s1 s2 : ℚ) (w w1 : WorldState)
    (h : worldUpdate f1 rng1 k1 p s1 w = some (w1, k1o)) :
    worldUpdate f2 rng2 k2 p s2 w1 = some (w1, k2) := by
  cases hg : genChunksLoop p f1 w.furthestZ w.chunks with
  | none =>
    unfold worldUpdate at h
    rw [hg] at h
    exact Option.noConfusion h
  | some fzc =>
    obtain ⟨fz, c⟩ := fzc
    cases hs : spawnLoop rng1 p s1 f1 k1 w.nextObstacleZ w.obstacles w.boostPads with
    | none =>
      unfold worldUpdate at h
      rw [hg, hs] at h
      exact Option.noConfusion h
    | some r =>
      obtain ⟨nz, obs, pads, kk⟩ := r
      rw [worldUpdate_eq f1 rng1 k1 p s1 w fz c nz obs pads kk hg hs] at h
      simp only [Option.some.injEq, Prod.mk.injEq] at h
      obtain ⟨hw, hk⟩ := h
      subst hw
      have hfz : ¬ fz > p - CHUNK_LENGTH * (VISIBLE_CHUNKS : ℚ) :=
        genChunksLoop_post p f1 w.furthestZ w.chunks (fz, c) hg
      have hnz : ¬ nz > p - CHUNK_LENGTH * ((VISIBLE_CHUNKS : ℚ) - 1) :=
        spawnLoop_post rng1 p s1 f1 k1 w.nextObstacleZ w.obstacles w.boostPads
          (nz, obs, pads, kk) hs
      rw [worldUpdate_eq f2 rng2 k2 p s2 _ fz
        (c.filter (fun z => decide (z ≤ p + CHUNK_LENGTH))) nz
        (obs.filter (fun o => decide (o.z ≤ p + 30)))
        (pads.filter (fun b => decide (b.z ≤ p + 30))) k2
        (genChunksLoop_noop p f2 fz _ hfz)
        (spawnLoop_noop rng2 p s2 f2 k2 nz _ _ hnz)]
      rw [filter_self_idem, filter_self_idem, filter_self_idem]

set_option maxRecDepth 8000 in
/-- C4, witness: from the seeded start observed at reference position
520 the first update is already settled, and a second update with
different fuel, random stream, cursor and score changes nothing. -/
theorem ensureCoverage_idempotent_witness :
    worldUpdate 7 (fun _ => 1/2) 5 520 3 (seedChunks worldReset) =
      some (seedChunks worldReset, 5) :=
  ensureCoverage_idempotent 3 7 0 5 0 rngZero (fun _ => 1/2) 520 0 3
    (seedChunks worldReset) (seedChunks worldReset) (by with_unfolding_all decide)

/-! ## Claim C1: the stored speed stays in `[BASE_SPEED, MAX_SPEED]` -/

/-- The obstacle loop never changes the stored speed. -/
lemma checkObsList_speed (px pz : ℚ) :
    ∀ (l : List Obstacle) (g : GameState), (checkObsList px pz g l).2.1.speed = g.speed := by
  intro l
  induction l with
  | nil => intro g; rfl
  | cons o t ih =>
    intro g
    simp only [checkObsList]
    split
    · split
      · show (gameOverFn g).speed = g.speed
        unfold gameOverFn
        split <;> rfl
      · split
        · exact ih _
        · exact ih _
    · exact ih _

/-- `Game.checkCollisions` never changes the stored speed. -/
lemma checkCollisions_speed (g : GameState) : (checkCollisions g).speed = g.speed := by
  simp only [checkCollisions]
  split
  · exact checkObsList_speed g.posX g.posZ g.world.obstacles g
  · exact checkObsList_speed g.posX g.posZ g.world.obstacles g

/-- The kinematic prefix sets the stored speed to the linear increase
clamped at `MAX_SPEED`, computed from the clamped delta. -/
lemma advanceKinematics_speed (i : StepIn) (g : GameState) :
    (advanceKinematics i g).speed =
      min (g.speed + SPEED_INCREASE_RATE * min i.delta 0.05) MAX_SPEED := by
  simp only [advanceKinematics, comboDecay]
  repeat' split
  all_goals rfl

/-- A successful frame either leaves the state untouched (non-playing
states) or sets the stored speed to the clamped linear increase. -/
lemma stepGame_some_speed (fuel k : ℕ) (rng : ℕ → ℚ) (i : StepIn) (g : GameState)
    (r : GameState × ℕ) (h : stepGame fuel rng k i g = some r) :
    r.1 = g ∨ r.1.speed = min (g.speed + SPEED_INCREASE_RATE * min i.delta 0.05) MAX_SPEED := by
  simp only [stepGame] at h
  split at h
  · right
    split at h
    · exact Option.noConfusion h
    · injection h with h1
      subst h1
      show (checkCollisions (advanceKinematics i g)).speed = _
      rw [checkCollisions_speed, advanceKinematics_speed]
  · injection h with h1
    subst h1
    exact Or.inl rfl

/-- One successful frame preserves the speed bounds, given a
non-negative raw delta. -/
lemma stepGame_speed_bounds (fuel k : ℕ) (rng : ℕ → ℚ) (i : StepIn) (g : GameState)
    (r : GameState × ℕ) (hd : 0 ≤ i.delta) (h1 : BASE_SPEED ≤ g.speed)
    (h2 : g.speed ≤ MAX_SPEED) (h : stepGame fuel rng k i g = some r) :
    BASE_SPEED ≤ r.1.speed ∧ r.1.speed ≤ MAX_SPEED := by
  rcases stepGame_some_speed fuel k rng i g r h with he | hs
  · rw [he]
    exact ⟨h1, h2⟩
  · rw [hs]
    refine ⟨le_min ?_ ?_, min_le_right _ _⟩
    · have hδ : 0 ≤ min i.delta 0.05 := le_min hd (by norm_num)
      have hmul : 0 ≤ SPEED_INCREASE_RATE * min i.delta 0.05 :=
        mul_nonneg (by norm_num [SPEED_INCREASE_RATE]) hδ
      linarith
    · norm_num [BASE_SPEED, MAX_SPEED]

/-- Speed bounds are preserved along any successful run of frames with
non-negative raw deltas. -/
lemma runSteps_speedOk (fuel : ℕ) (rng : ℕ → ℚ) :
    ∀ (inputs : List StepIn) (g : GameState) (k : ℕ),
      (∀ i ∈ inputs, 0 ≤ i.delta) → BASE_SPEED ≤ g.speed → g.speed ≤ MAX_SPEED →
      speedOkB (runSteps fuel rng inputs (g, k)) = true := by
  intro inputs
  induction inputs with
  | nil =>
    intro g k _ h1 h2
    show speedOkB (some (g, k)) = true
    simp only [speedOkB, decide_eq_true_eq]
    exact ⟨h1, h2⟩
  | cons i t ih =>
    intro g k hd h1 h2
    simp only [runSteps]
    cases hs : stepGame fuel rng k i g with
    | none => rfl
    | some gk1 =>
      obtain ⟨hb1, hb2⟩ := stepGame_speed_bounds fuel k rng i g gk1
        (hd i (List.mem_cons_self i t)) h1 h2 hs
      exact ih gk1.1 gk1.2 (fun j hj => hd j (List.mem_cons_of_mem i hj)) hb1 hb2

/-- C1.  The session's stored speed starts at `BASE_SPEED` and, along
every sequence of frames with non-negative elapsed times and arbitrary
steering, stays within `[BASE_SPEED, MAX_SPEED]`: each playing-state
frame only adds `SPEED_INCREASE_RATE * delta` with the delta clamped,
then clamps at `MAX_SPEED`, and no other code path writes the speed. -/
theorem speed_stays_bounded (stored : ℤ) (fuel : ℕ) (rng : ℕ → ℚ) (inputs : List StepIn)
    (hd : ∀ i ∈ inputs, 0 ≤ i.delta) :
    (startGame (initGame stored)).speed = BASE_SPEED ∧
    speedOkB (runSteps fuel rng inputs (startGame (initGame stored), 0)) = true :=
  ⟨rfl, runSteps_speedOk fuel rng inputs (startGame (initGame stored)) 0 hd
    (le_refl _) (by show BASE_SPEED ≤ MAX_SPEED; norm_num [BASE_SPEED, MAX_SPEED])⟩

/-- C1, witness at a concrete steering-input sequence. -/
theorem speed_stays_bounded_witness :
    (∀ i ∈ ([{ delta := 1, steer := 0 }] : List StepIn), 0 ≤ i.delta) ∧
    ((startGame (initGame 0)).speed = BASE_SPEED ∧
      speedOkB (runSteps 30 rngZero [{ delta := 1, steer := 0 }]
        (startGame (initGame 0), 0)) = true) :=
  ⟨by intro i hi
      rw [List.mem_singleton] at hi
      subst hi
      norm_num,
    speed_stays_bounded 0 30 rngZero [{ delta := 1, steer := 0 }]
      (by intro i hi
          rw [List.mem_singleton] at hi
          subst hi
          norm_num)⟩

/-! ## Claim C8: boost-pad pickup -/

/-- Once the boost timer has been set to 3 by a pickup, the rest of the
pad loop leaves it at 3 (any further pickup sets it to 3 again). -/
lemma checkPadsList_bt3 (px pz : ℚ) :
    ∀ (l : List Pad), (checkPadsList px pz l 3).2 = 3 := by
  intro l
  induction l with
  | nil => rfl
  | cons p t ih =>
    simp only [checkPadsList]
    split
    · exact ih
    · exact ih

/-- The pad loop processes an appended list as the two halves in
sequence, threading the boost timer. -/
lemma checkPadsList_append (px pz : ℚ) :
    ∀ (l1 l2 : List Pad) (bt : ℚ),
      checkPadsList px pz (l1 ++ l2) bt =
        ((checkPadsList px pz l1 bt).1 ++
          (checkPadsList px pz l2 (checkPadsList px pz l1 bt).2).1,
         (checkPadsList px pz l2 (checkPadsList px pz l1 bt).2).2) := by
  intro l1
  induction l1 with
  | nil => intro l2 bt; rfl
  | cons p t ih =>
    intro l2 bt
    simp only [List.cons_append, checkPadsList]
    split
    · simp only [List.append_eq]
      rw [ih]
      rfl
    · simp only [List.append_eq]
      rw [ih]
      rfl

/-- C8.  An active pad within the pickup thresholds (`|dx| < 1.8`,
`|dz| < 2.0`) is consumed wherever it sits in the collection: the loop
ends with the boost timer set to 3 seconds, the pad deactivated and
removed from the scene, and a deactivated pad passes through the loop
untouched, so it can never trigger a second pickup. -/
theorem boost_pad_pickup (px pz bt : ℚ) (pre post : List Pad) (p : Pad)
    (ha : p.active = true) (hx : |px - p.x| < 1.8) (hz : |pz - p.z| < 2) :
    (checkPadsList px pz (pre ++ p :: post) bt).2 = 3 ∧
    (checkPadsList px pz (pre ++ p :: post) bt).1 =
      (checkPadsList px pz pre bt).1 ++
        { p with active := false, inScene := false } ::
          (checkPadsList px pz post 3).1 ∧
    checkPadsList px pz [{ p with active := false }] bt =
      ([{ p with active := false }], bt) := by
  have hmid : ∀ b : ℚ, checkPadsList px pz (p :: post) b =
      ({ p with active := false, inScene := false } :: (checkPadsList px pz post 3).1,
        (checkPadsList px pz post 3).2) := by
    intro b
    simp only [checkPadsList]
    rw [if_pos ⟨ha, hx, hz⟩]
  refine ⟨?_, ?_, ?_⟩
  · rw [checkPadsList_append, hmid]
    exact checkPadsList_bt3 px pz post
  · rw [checkPadsList_append, hmid]
  · simp only [checkPadsList]
    rw [if_neg (by simp)]

/-- C8, witness: a single active pad at the origin picked up from the
origin. -/
theorem boost_pad_pickup_witness :
    (padW.active = true ∧ |(0 : ℚ) - padW.x| < 1.8 ∧ |(0 : ℚ) - padW.z| < 2) ∧
    ((checkPadsList 0 0 ([] ++ padW :: []) 0).2 = 3 ∧
     (checkPadsList 0 0 ([] ++ padW :: []) 0).1 =
       (checkPadsList 0 0 [] 0).1 ++
         { padW with active := false, inScene := false } :: (checkPadsList 0 0 [] 3).1 ∧
     checkPadsList 0 0 [{ padW with active := false }] 0 =
       ([{ padW with active := false }], 0)) :=
  ⟨⟨rfl, by with_unfolding_all decide, by with_unfolding_all decide⟩,
    boost_pad_pickup 0 0 0 [] [] padW rfl (by with_unfolding_all decide)
      (by with_unfolding_all decide)⟩

/-! ## Claim C9: persistent high score -/

/-- The obstacle loop never decreases the in-memory high score. -/
lemma checkObsList_highScore (px pz : ℚ) :
    ∀ (l : List Obstacle) (g : GameState),
      g.highScore ≤ (checkObsList px pz g l).2.1.highScore := by
  intro l
  induction l with
  | nil => intro g; exact le_refl _
  | cons o t ih =>
    intro g
    simp only [checkObsList]
    split
    · split
      · show g.highScore ≤ (gameOverFn g).highScore
        unfold gameOverFn
        split
        · next hrec => exact le_of_lt hrec
        · exact le_refl _
      · split
        · exact ih _
        · exact ih _
    · exact ih _

/-- `Game.checkCollisions` never decreases the in-memory high score. -/
lemma checkCollisions_highScore (g : GameState) :
    g.highScore ≤ (checkCollisions g).highScore := by
  simp only [checkCollisions]
  split
  · exact checkObsList_highScore _ _ _ _
  · exact checkObsList_highScore _ _ _ _

/-- The kinematic prefix never touches the in-memory high score. -/
lemma advanceKinematics_highScore (i : StepIn) (g : GameState) :
    (advanceKinematics i g).highScore = g.highScore := by
  simp only [advanceKinematics, comboDecay]
  repeat' split
  all_goals rfl

/-- Across one successful frame the in-memory high score never
decreases. -/
lemma stepGame_highScore (fuel k : ℕ) (rng : ℕ → ℚ) (i : StepIn) (g : GameState)
    (r : GameState × ℕ) (h : stepGame fuel rng k i g = some r) :
    g.highScore ≤ r.1.highScore := by
  simp only [stepGame] at h
  split at h
  · split at h
    · exact Option.noConfusion h
    · injection h with h1
      subst h1
      show g.highScore ≤ (checkCollisions (advanceKinematics i g)).highScore
      calc g.highScore = (advanceKinematics i g).highScore :=
            (advanceKinematics_highScore i g).symm
        _ ≤ _ := checkCollisions_highScore _
  · injection h with h1
    subst h1
    exact le_refl _

/-- C9.  The persisted high score is a monotonic maximum: it is the
stored value at startup; `Game.gameOver` raises the in-memory high score
to the maximum of itself and the final score, writes the store exactly
when the final score strictly exceeds it (taking the new score as the
written value) and leaves the store untouched otherwise; and no frame
ever decreases the in-memory high score. -/
theorem high_score_monotonic_persist (stored : ℤ) (g gs gs' : GameState)
    (fuel k k' : ℕ) (rng : ℕ → ℚ) (i : StepIn)
    (hstep : stepGame fuel rng k i gs = some (gs', k')) :
    (initGame stored).highScore = stored ∧
    g.highScore ≤ (gameOverFn g).highScore ∧
    (gameOverFn g).highScore = max g.highScore g.score ∧
    ((gameOverFn g).storeLog = g.storeLog ++ [g.score] ↔ g.highScore < g.score) ∧
    (¬ g.highScore < g.score →
      (gameOverFn g).store = g.store ∧ (gameOverFn g).storeLog = g.storeLog) ∧
    (g.highScore < g.score → (gameOverFn g).store = g.score) ∧
    gs.highScore ≤ gs'.highScore := by
  refine ⟨rfl, ?_, ?_, ?_, ?_, ?_,
    stepGame_highScore fuel k rng i gs (gs', k') hstep⟩
  · unfold gameOverFn
    split
    · next hrec => exact le_of_lt hrec
    · exact le_refl _
  · unfold gameOverFn
    split
    · next hrec =>
      show g.score = max g.highScore g.score
      exact (max_eq_right (le_of_lt hrec)).symm
    · next hrec =>
      show g.highScore = max g.highScore g.score
      exact (max_eq_left (not_lt.mp hrec)).symm
  · unfold gameOverFn
    split
    · next hrec => exact iff_of_true rfl hrec
    · next hrec =>
      refine iff_of_false ?_ hrec
      intro heq
      have hl := congrArg List.length heq
      simp at hl
  · intro hnr
    unfold gameOverFn
    rw [if_neg hnr]
    exact ⟨rfl, rfl⟩
  · intro hr
    unfold gameOverFn
    rw [if_pos hr]

/-- C9, witness: a stored high score of 7 read at startup, a session
ending at score 5 against high score 3 (a new record), and one no-op
frame from the menu state. -/
theorem high_score_monotonic_persist_witness :
    stepGame 1 rngZero 0 { delta := 1, steer := 0 } (initGame 7) = some (initGame 7, 0) ∧
    ((initGame 7).highScore = 7 ∧
     gHi.highScore ≤ (gameOverFn gHi).highScore ∧
     (gameOverFn gHi).highScore = max gHi.highScore gHi.score ∧
     ((gameOverFn gHi).storeLog = gHi.storeLog ++ [gHi.score] ↔ gHi.highScore < gHi.score) ∧
     (¬ gHi.highScore < gHi.score →
       (gameOverFn gHi).store = gHi.store ∧ (gameOverFn gHi).storeLog = gHi.storeLog) ∧
     (gHi.highScore < gHi.score → (gameOverFn gHi).store = gHi.score) ∧
     (initGame 7).highScore ≤ (initGame 7).highScore) :=
  ⟨by with_unfolding_all rfl,
    high_score_monotonic_persist 7 gHi (initGame 7) (initGame 7) 1 0 0 rngZero
      { delta := 1, steer := 0 } (by with_unfolding_all rfl)⟩

/-! ## Claim C10: the score is re-derived from the distance every frame -/

/-- The kinematic prefix never reads the incoming score: a frame from a
state with any other score value is identical. -/
lemma advanceKinematics_score_irrel (i : StepIn) (g : GameState) (q : ℤ) :
    advanceKinematics i { g with score := q } = advanceKinematics i g := by
  cases g
  rfl

/-- After the kinematic prefix the score equals the floor of the
distance. -/
lemma advanceKinematics_score_floor (i : StepIn) (g : GameState) :
    (advanceKinematics i g).score = ⌊(advanceKinematics i g).distance⌋ := by
  simp only [advanceKinematics, comboDecay]
  repeat' split
  all_goals rfl

/-- The kinematic prefix never touches the world. -/
lemma advanceKinematics_world (i : StepIn) (g : GameState) :
    (advanceKinematics i g).world = g.world := by
  simp only [advanceKinematics, comboDecay]
  repeat' split
  all_goals rfl

/-- The obstacle loop never changes the distance. -/
lemma checkObsList_distance (px pz : ℚ) :
    ∀ (l : List Obstacle) (g : GameState),
      (checkObsList px pz g l).2.1.distance = g.distance := by
  intro l
  induction l with
  | nil => intro g; rfl
  | cons o t ih =>
    intro g
    simp only [checkObsList]
    split
    · split
      · show (gameOverFn g).distance = g.distance
        unfold gameOverFn
        split <;> rfl
      · split
        · exact ih _
        · exact ih _
    · exact ih _

/-- `Game.checkCollisions` never changes the distance. -/
lemma checkCollisions_distance (g : GameState) :
    (checkCollisions g).distance = g.distance := by
  simp only [checkCollisions]
  split
  · exact checkObsList_distance _ _ _ _
  · exact checkObsList_distance _ _ _ _

/-- When no active obstacle is in the near-miss zone, the obstacle loop
leaves the score unchanged (a collision does not touch it either). -/
lemma checkObsList_score_noNM (px pz : ℚ) :
    ∀ (l : List Obstacle) (g : GameState),
      (∀ o ∈ l, o.active = true → nearMissCond |px - o.x| |pz - o.z| = false) →
      (checkObsList px pz g l).2.1.score = g.score := by
  intro l
  induction l with
  | nil => intro g _; rfl
  | cons o t ih =>
    intro g hno
    simp only [checkObsList]
    split
    · next hact =>
      split
      · show (gameOverFn g).score = g.score
        unfold gameOverFn
        split <;> rfl
      · split
        · next hnm =>
          rw [hno o (List.mem_cons_self o t) hact] at hnm
          exact Bool.noConfusion hnm
        · exact ih g (fun o2 ho2 => hno o2 (List.mem_cons_of_mem o ho2))
    · exact ih g (fun o2 ho2 => hno o2 (List.mem_cons_of_mem o ho2))

/-- `Game.checkCollisions` leaves the score unchanged when no active
obstacle is in the near-miss zone. -/
lemma checkCollisions_score_noNM (g : GameState)
    (hno : ∀ o ∈ g.world.obstacles, o.active = true →
      nearMissCond |g.posX - o.x| |g.posZ - o.z| = false) :
    (checkCollisions g).score = g.score := by
  simp only [checkCollisions]
  split
  · exact checkObsList_score_noNM g.posX g.posZ g.world.obstacles g hno
  · exact checkObsList_score_noNM g.posX g.posZ g.world.obstacles g hno

/-- C10.  In every playing-state frame the score is reassigned to
`⌊distance⌋` before the collision checks run: the frame's outcome is
independent of whatever score (e.g. a combo bonus) the previous frame
left behind, and when the frame raises no near-miss event the resulting
score is exactly `⌊distance⌋`, the bonus having been discarded. -/
theorem score_rederived_from_distance (fuel k : ℕ) (rng : ℕ → ℚ) (i : StepIn)
    (g : GameState) (q : ℤ) (hp : g.state = SessionState.playing)
    (hno : ∀ o ∈ g.world.obstacles, o.active = true →
      nearMissCond |(advanceKinematics i g).posX - o.x|
        |(advanceKinematics i g).posZ - o.z| = false) :
    stepGame fuel rng k i { g with score := q } = stepGame fuel rng k i g ∧
    scoreFloorB (stepGame fuel rng k i g) = true := by
  constructor
  · simp only [stepGame]
    rw [if_pos hp, if_pos hp, advanceKinematics_score_irrel]
  · simp only [stepGame]
    rw [if_pos hp]
    have hnoT : ∀ o ∈ (advanceKinematics i g).world.obstacles, o.active = true →
        nearMissCond |(advanceKinematics i g).posX - o.x|
          |(advanceKinematics i g).posZ - o.z| = false := by
      intro o ho
      rw [advanceKinematics_world] at ho
      exact hno o ho
    cases hw : worldUpdate fuel rng k (checkCollisions (advanceKinematics i g)).posZ
        ((checkCollisions (advanceKinematics i g)).score : ℚ)
        (checkCollisions (advanceKinematics i g)).world with
    | none => rfl
    | some wr =>
      simp only [scoreFloorB, decide_eq_true_eq]
      show (checkCollisions (advanceKinematics i g)).score =
        ⌊(checkCollisions (advanceKinematics i g)).distance⌋
      rw [checkCollisions_score_noNM _ hnoT, checkCollisions_distance,
        advanceKinematics_score_floor]

/-- C10, witness: a playing-state session carrying a stale score of 999
and one distant obstacle; the frame ignores the stale score and returns
the score to the floor of the distance. -/
theorem score_rederived_from_distance_witness :
    gTen.state = SessionState.playing ∧
    (∀ o ∈ gTen.world.obstacles, o.active = true →
      nearMissCond |(advanceKinematics { delta := 0.016, steer := 1 } gTen).posX - o.x|
        |(advanceKinematics { delta := 0.016, steer := 1 } gTen).posZ - o.z| = false) ∧
    (stepGame 5 rngZero 0 { delta := 0.016, steer := 1 } { gTen with score := 999 } =
       stepGame 5 rngZero 0 { delta := 0.016, steer := 1 } gTen ∧
     scoreFloorB (stepGame 5 rngZero 0 { delta := 0.016, steer := 1 } gTen) = true) :=
  ⟨rfl, by with_unfolding_all decide,
    score_rederived_from_distance 5 0 rngZero { delta := 0.016, steer := 1 } gTen 999 rfl
      (by with_unfolding_all decide)⟩

end Racegame
